import Mathlib

/-!
Shallow embedding of `src/main.py` (V-ENGINE API, a video download service)
and proofs about its behaviour.

The embedding models the pure decision logic of the Python functions:
filesystem contents are passed in as explicit lists, the outcomes of the
external `yt_dlp` collaborator are passed in as `Except` values, and raised
`HTTPException`s become `Except.error` results.
-/

set_option maxHeartbeats 1000000

namespace VEngine

/-- The characters removed by `sanitize_filename` (src/main.py line 40):
the regex character class `[<>:"/\\|?*]`. -/
def forbiddenChars : List Char := ['<', '>', ':', '"', '/', '\\', '|', '?', '*']

/-- Characters stripped from both ends by Python's `str.strip()`
(ASCII whitespace; the Unicode extras are irrelevant to the claims). -/
def pyWhitespace : List Char := [' ', '\t', '\n', '\r', '\x0b', '\x0c']

/-- Python `str.strip()` on a list of characters: drop whitespace from
both ends. -/
def stripChars (cs : List Char) : List Char :=
  ((cs.dropWhile (pyWhitespace.contains ·)).reverse.dropWhile
    (pyWhitespace.contains ·)).reverse

/-- The sanitizing pipeline of `sanitize_filename` (src/main.py lines 40-42)
before the `or "video_download"` fallback:
`re.sub(r'[<>:"/\\|?*]', '', name)`, then `.replace(' ', '_')`, then
`.strip()`, then `[:100]`. -/
def sanitizedCore (s : String) : List Char :=
  let s1 := s.data.filter (fun c => ! forbiddenChars.contains c)
  let s2 := s1.map (fun c => if c = ' ' then '_' else c)
  (stripChars s2).take 100

/-- Function `sanitize_filename` (src/main.py lines 39-42): the sanitizing pipeline,
falling back to `"video_download"` when it yields the empty string
(`return name[:100] or "video_download"`). -/
def sanitize_filename (s : String) : String :=
  let core := sanitizedCore s
  if core.isEmpty then "video_download" else String.mk core

/-- Python `pathlib.Path(...).suffix`: the extension of the final component,
starting at its last dot; empty when there is no dot, when the dot is the
first character, or when the dot is the last character. -/
def pathSuffix (s : String) : String :=
  let rev := s.data.reverse
  let ext := rev.takeWhile (fun c => c ≠ '.')
  if ext.length = rev.length ∨ ext.isEmpty ∨ ext.length + 1 = rev.length then ""
  else String.mk ('.' :: ext.reverse)

/-- Python's substring test `tok in s` (this is what a `glob` pattern
`*tok*` matches on a file name). -/
def hasSubstr (tok : List Char) : List Char → Bool
  | [] => tok.isEmpty
  | c :: cs => tok.isPrefixOf (c :: cs) || hasSubstr tok cs

/-- Python `fastapi.HTTPException(status_code, detail)` as raised by the handlers. -/
structure HTTPException where
  status_code : Nat
  detail : String
deriving DecidableEq

/-- An HTTP status code in the client-error class (4xx). -/
def isClientError (c : Nat) : Bool := 400 ≤ c && c < 500

/-- An entry of the staging directory `TEMP_DIR` as seen by
`download_video_logic`: its name and last-modification time
(`os.path.getmtime`, an epoch timestamp). -/
structure TmpFile where
  name : String
  mtime : Int
deriving DecidableEq

/-- Python `sorted(files, key=os.path.getmtime, reverse=True)`
(src/main.py line 184): a stable sort placing the most recently modified
file first. Python's sort is stable, and a stable sort's output is uniquely
determined by the ordering, so any stable sort models it exactly. -/
def sortByMtimeDesc (files : List TmpFile) : List TmpFile :=
  files.insertionSort (fun a b => b.mtime ≤ a.mtime)

/-- What `download_video_logic` reads off the collaborator's `info` dict on
success: the title (`info.get('title', 'video')` already defaulted) and
`os.path.splitext(ydl.prepare_filename(info))[0]`, the expected output
path minus its extension. -/
structure DlInfo where
  title : String
  expectedBase : String
deriving DecidableEq

/-- The fixed detail string of the `HTTPException(400, ...)` raised by
`download_video_logic` on any failure (src/main.py line 193). -/
def dlErrDetail : String := "Erro no download: Plataforma bloqueou a requisição."

/-- Function `download_video_logic` (src/main.py lines 166-193). Inputs made
explicit: `format_type` (request field), `extractRes` (the outcome of
`ydl.extract_info(url, download=True)`, `.error` when the collaborator
raised), `freshTok` (the value of the `uuid.uuid4().hex[:4]` drawn anew at
line 181 — note it is not the prefix used in the output template), and
`temps` (the contents of `TEMP_DIR`, in directory-listing order). Returns
the chosen file name with the original title, or the `HTTPException(400, ...)`
that the single `except` clause raises on any failure. -/
def download_video_logic (format_type : String) (extractRes : Except String DlInfo)
    (freshTok : String) (temps : List TmpFile) : Except HTTPException (String × String) :=
  match extractRes with
  | .error _ => .error ⟨400, dlErrDetail⟩
  | .ok info =>
    let final_path := info.expectedBase ++ (if format_type = "mp3" then ".mp3" else ".mp4")
    if final_path ∈ temps.map (fun f => f.name) then
      .ok (final_path, info.title)
    else
      match temps.filter (fun f => hasSubstr freshTok.data f.name.data) with
      | f :: _ => .ok (f.name, info.title)
      | [] =>
        match sortByMtimeDesc temps with
        | f :: _ => .ok (f.name, info.title)
        | [] => .error ⟨400, dlErrDetail⟩

/-- The `DownloadResponse` pydantic model (src/main.py lines 69-72). -/
structure DownloadResponse where
  status : String
  message : String
  download_url : Option String
deriving DecidableEq

/-- A background task scheduled through FastAPI's `BackgroundTasks`. The
program only ever schedules one kind: `cleanup_old_files`. -/
inductive BgTask
  | cleanup
deriving DecidableEq

/-- The detail string of the `HTTPException(500, ...)` raised by the
`download` endpoint's blanket handler (src/main.py line 255). -/
def serverErrDetail : String := "Ocorreu um erro ao processar o vídeo no servidor."

/-- The `/api/download` endpoint body after `download_video_logic` has
returned (src/main.py lines 234-255). Inputs made explicit: `logicRes`
(the outcome of `download_video_logic`), `safe_id` (`uuid.uuid4().hex[:6]`),
`timestamp` (`datetime.now().strftime("%H%M%S")`), and `moveFails` (whether
`shutil.move` raises). Returns the response (or the raised exception)
paired with the background tasks added via `bg.add_task`; any exception,
including the 400 `HTTPException` from `download_video_logic`, is caught
by the blanket `except` and re-raised as a 500, and in that case
`bg.add_task` is never reached. -/
def download (logicRes : Except HTTPException (String × String))
    (safe_id timestamp : String) (moveFails : Bool) :
    Except HTTPException DownloadResponse × List BgTask :=
  match logicRes with
  | .error _ => (.error ⟨500, serverErrDetail⟩, [])
  | .ok (tempName, title) =>
    if moveFails then (.error ⟨500, serverErrDetail⟩, [])
    else
      let safe_filename := "dl_" ++ timestamp ++ "_" ++ safe_id ++ pathSuffix tempName
      (.ok { status := "success",
             message := "Download concluído",
             download_url := some ("/api/file/" ++ safe_filename ++ "?title="
                                    ++ sanitize_filename title) },
       [BgTask.cleanup])

/-- The `/api/download` endpoint end to end: `download_video_logic`
composed with the endpoint body. -/
def download_endpoint (format_type : String) (extractRes : Except String DlInfo)
    (freshTok : String) (temps : List TmpFile) (safe_id timestamp : String)
    (moveFails : Bool) : Except HTTPException DownloadResponse × List BgTask :=
  download (download_video_logic format_type extractRes freshTok temps)
    safe_id timestamp moveFails

/-- The background tasks the application schedules at process start.
The app definition (src/main.py lines 209-228) registers route handlers and
CORS middleware only: there is no startup or lifespan hook, no
`asyncio.create_task`, and no periodic scheduler, so this list is empty. -/
def startup_tasks : List BgTask := []

/-- The `VideoFormat` pydantic model (src/main.py lines 48-52). -/
structure VideoFormat where
  format_id : String
  format_name : String
  resolution : Option String
  codec : Option String
deriving DecidableEq

/-- The `VideoMetadata` pydantic model (src/main.py lines 54-59). -/
structure VideoMetadata where
  title : String
  duration_seconds : Int
  thumbnail_url : String
  uploader : String
  formats : List VideoFormat
deriving DecidableEq

/-- One entry of the collaborator's `info['formats']` list, with the
fields `extract_video_info` reads (already passed through `str(...)` /
defaulting as in the code). -/
structure RawFormat where
  format_id : String
  format : String
  height : String
  vcodec : String
deriving DecidableEq

/-- The collaborator's `info` dict as read by `extract_video_info`, fields
already defaulted as in the code (`info.get('title', 'Video')` etc.). -/
structure RawInfo where
  title : String
  duration : Int
  thumbnail : String
  uploader : String
  formats : List RawFormat
deriving DecidableEq

/-- Function `extract_video_info` (src/main.py lines 140-164). `collab` is the
outcome of `ydl.extract_info(url, download=False)`; on any exception the
handler raises `HTTPException(400, ...)` with a fixed generic detail. On
success it keeps the first 15 raw formats, drops those with
`vcodec == 'none'`, and builds the metadata model. -/
def extract_video_info (collab : Except String RawInfo) :
    Except HTTPException VideoMetadata :=
  match collab with
  | .error _ => .error ⟨400, "Servidor recusou o link ou vídeo indisponível."⟩
  | .ok info =>
    .ok { title := info.title,
          duration_seconds := info.duration,
          thumbnail_url := info.thumbnail,
          uploader := info.uploader,
          formats := ((info.formats.take 15).filter (fun f => f.vcodec != "none")).map
            (fun f => { format_id := f.format_id,
                        format_name := f.format,
                        resolution := some f.height,
                        codec := some f.vcodec }) }

/-- The value FastAPI's `FileResponse` is constructed with in `get_file`. -/
structure FileResponseModel where
  path : String
  media_type : String
  filename : String
deriving DecidableEq

/-- Function `get_file` (src/main.py lines 257-268), the `/api/file/{filename}`
endpoint. `serving` is the set of file names present in `DOWNLOAD_DIR`
(so `(DOWNLOAD_DIR / filename).exists()` becomes membership); `title` is
the query parameter with FastAPI default `"video"`. -/
def get_file (serving : List String) (filename : String) (title : Option String) :
    Except HTTPException FileResponseModel :=
  if filename ∈ serving then
    .ok { path := filename,
          media_type := "application/octet-stream",
          filename := sanitize_filename (title.getD "video") ++ pathSuffix filename }
  else
    .error ⟨404, "Arquivo sumiu ou expirou."⟩

/-- An entry of a swept directory as seen by `cleanup_old_files`: name,
last-modification time, whether `f.is_file()` holds, and whether
`f.unlink()` would raise (e.g. a permission error). -/
structure FsFile where
  name : String
  mtime : Int
  isFile : Bool
  unlinkFails : Bool
deriving DecidableEq

/-- The inner loop of `cleanup_old_files` over one directory
(src/main.py lines 199-201): files are visited in listing order and
unlinked when `f.is_file()` and `mtime < cutoff`. Returns the directory
contents after the loop together with whether an unlink raised; a raise
leaves the raising file and every file after it untouched (the exception
propagates out of the loop). -/
def sweepDir (cutoff : Int) : List FsFile → List FsFile × Bool
  | [] => ([], false)
  | f :: rest =>
    if f.isFile = true ∧ f.mtime < cutoff then
      if f.unlinkFails = true then (f :: rest, true)
      else sweepDir cutoff rest
    else
      let r := sweepDir cutoff rest
      (f :: r.1, r.2)

/-- The two swept directories (`TEMP_DIR` and `DOWNLOAD_DIR`) plus whether
listing each of them (`d.glob("*")`) raises. -/
structure DirsState where
  temp : List FsFile
  download : List FsFile
  tempGlobFails : Bool
  downloadGlobFails : Bool
deriving DecidableEq

/-- The body of `cleanup_old_files`'s `try` block (src/main.py
lines 197-201): `cutoff = now - window`, then sweep `TEMP_DIR`, then
`DOWNLOAD_DIR`. An exception anywhere aborts the rest; the error value
carries the state the filesystem was left in at the raise point. -/
def cleanup_body (now window : Int) (s : DirsState) :
    Except (String × DirsState) DirsState :=
  let cutoff := now - window
  if s.tempGlobFails = true then .error ("glob", s)
  else
    let t := sweepDir cutoff s.temp
    if t.2 = true then .error ("unlink", { s with temp := t.1 })
    else if s.downloadGlobFails = true then .error ("glob", { s with temp := t.1 })
    else
      let d := sweepDir cutoff s.download
      if d.2 = true then .error ("unlink", { s with temp := t.1, download := d.1 })
      else .ok { s with temp := t.1, download := d.1 }

/-- Function `cleanup_old_files` (src/main.py lines 195-203): the `try` body with
its single `except Exception` handler, which logs and returns, leaving the
filesystem as the raise point left it. -/
def cleanup_old_files (now window : Int) (s : DirsState) : DirsState :=
  match cleanup_body now window s with
  | .ok s' => s'
  | .error (_, s') => s'

/-- Modelled from the spec: the fixed allow-list of media-container file
extensions that §4.3 step 3 says the Output Resolver filters candidates
to ("audio and video container/extension types"), discarding byproducts
such as embedded thumbnail images. The source contains no such list; this
definition exists only to compare the spec's claimed filtering with what
the code does. -/
def specMediaExtensions : List String :=
  [".mp4", ".mp3", ".mkv", ".webm", ".m4a", ".mp3", ".avi", ".mov",
   ".flac", ".wav", ".ogg", ".opus", ".aac", ".m4v", ".ts", ".3gp"]

/-- Totality of the descending-mtime ordering used by `sortByMtimeDesc`. -/
instance : IsTotal TmpFile (fun a b => b.mtime ≤ a.mtime) :=
  ⟨fun a b => le_total b.mtime a.mtime⟩

/-- Transitivity of the descending-mtime ordering used by `sortByMtimeDesc`. -/
instance : IsTrans TmpFile (fun a b => b.mtime ≤ a.mtime) :=
  ⟨fun _ _ _ hab hbc => le_trans hbc hab⟩

/-! ## Helper lemmas -/

/-- Stripping only removes characters: membership in the stripped list is
preserved backwards. -/
theorem mem_of_mem_stripChars {c : Char} {l : List Char} (h : c ∈ stripChars l) :
    c ∈ l := by
  unfold stripChars at h
  rw [List.mem_reverse] at h
  have h1 := (List.dropWhile_sublist _).subset h
  rw [List.mem_reverse] at h1
  exact (List.dropWhile_sublist _).subset h1

/-- Every character of the sanitizing pipeline's output is neither a
forbidden character nor a space. -/
theorem sanitizedCore_chars (s : String) :
    ∀ c ∈ sanitizedCore s, c ∉ forbiddenChars ∧ c ≠ ' ' := by
  intro c hc
  unfold sanitizedCore at hc
  have h2 := mem_of_mem_stripChars (List.mem_of_mem_take hc)
  rcases List.mem_map.mp h2 with ⟨a, ha, rfl⟩
  rcases List.mem_filter.mp ha with ⟨_, hpa⟩
  by_cases hsp : a = ' '
  · rw [if_pos hsp]
    exact ⟨by decide, by decide⟩
  · rw [if_neg hsp]
    refine ⟨?_, hsp⟩
    intro hmem
    simp at hpa
    exact hpa hmem

/-- A file whose mtime is not older than the cutoff survives the sweep of
its directory, whatever happens around it. -/
theorem mem_sweepDir_of_young {cutoff : Int} {f : FsFile} (hf : cutoff < f.mtime) :
    ∀ {l : List FsFile}, f ∈ l → f ∈ (sweepDir cutoff l).1 := by
  intro l
  induction l with
  | nil => intro h; exact absurd h (List.not_mem_nil f)
  | cons g rest ih =>
    intro hmem
    unfold sweepDir
    by_cases hdue : g.isFile = true ∧ g.mtime < cutoff
    · rw [if_pos hdue]
      by_cases hu : g.unlinkFails = true
      · rw [if_pos hu]
        exact hmem
      · rw [if_neg hu]
        rcases List.mem_cons.mp hmem with hfg | hfr
        · exact absurd (hfg ▸ hdue.2) (not_lt.mpr (le_of_lt hf))
        · exact ih hfr
    · rw [if_neg hdue]
      rcases List.mem_cons.mp hmem with hfg | hfr
      · exact hfg ▸ List.mem_cons_self g _
      · exact List.mem_cons_of_mem g (ih hfr)

/-- What one run of `cleanup_old_files` leaves in the staging area. -/
theorem cleanup_temp_eq (now window : Int) (s : DirsState) :
    (cleanup_old_files now window s).temp =
      if s.tempGlobFails = true then s.temp
      else (sweepDir (now - window) s.temp).1 := by
  by_cases h1 : s.tempGlobFails = true
  · simp [cleanup_old_files, cleanup_body, h1]
  · by_cases h2 : (sweepDir (now - window) s.temp).2 = true
    · simp [cleanup_old_files, cleanup_body, h1, h2]
    · by_cases h3 : s.downloadGlobFails = true
      · simp [cleanup_old_files, cleanup_body, h1, h2, h3]
      · by_cases h4 : (sweepDir (now - window) s.download).2 = true
        · simp [cleanup_old_files, cleanup_body, h1, h2, h3, h4]
        · simp [cleanup_old_files, cleanup_body, h1, h2, h3, h4]

/-- What one run of `cleanup_old_files` leaves in the serving area. -/
theorem cleanup_download_eq (now window : Int) (s : DirsState) :
    (cleanup_old_files now window s).download =
      if s.tempGlobFails = true ∨ (sweepDir (now - window) s.temp).2 = true
         ∨ s.downloadGlobFails = true then s.download
      else (sweepDir (now - window) s.download).1 := by
  by_cases h1 : s.tempGlobFails = true
  · simp [cleanup_old_files, cleanup_body, h1]
  · by_cases h2 : (sweepDir (now - window) s.temp).2 = true
    · simp [cleanup_old_files, cleanup_body, h1, h2]
    · by_cases h3 : s.downloadGlobFails = true
      · simp [cleanup_old_files, cleanup_body, h1, h2, h3]
      · by_cases h4 : (sweepDir (now - window) s.download).2 = true
        · simp [cleanup_old_files, cleanup_body, h1, h2, h3, h4]
        · simp [cleanup_old_files, cleanup_body, h1, h2, h3, h4]

/-! ## Claim theorems -/

/-- C9: for every input string, `sanitize_filename` returns a non-empty
string of at most 100 characters containing none of the characters
`< > : " / \ | ? *` and no space character; when the sanitized result
would be empty it returns the fixed fallback `"video_download"`. -/
theorem C9_sanitize_filename_safe (s : String) :
    (sanitize_filename s).data ≠ [] ∧
    (sanitize_filename s).data.length ≤ 100 ∧
    (∀ c ∈ (sanitize_filename s).data, c ∉ forbiddenChars ∧ c ≠ ' ') ∧
    (sanitizedCore s = [] → sanitize_filename s = "video_download") := by
  unfold sanitize_filename
  by_cases hc : (sanitizedCore s).isEmpty = true
  · rw [if_pos hc]
    refine ⟨by decide, by decide, ?_, fun _ => rfl⟩
    intro c hcmem
    fin_cases hcmem <;> exact ⟨by decide, by decide⟩
  · rw [if_neg hc]
    refine ⟨?_, ?_, ?_, ?_⟩
    · show sanitizedCore s ≠ []
      exact fun h => hc (by simp [h])
    · show (sanitizedCore s).length ≤ 100
      unfold sanitizedCore
      exact le_trans (List.length_take_le 100 _) le_rfl
    · show ∀ c ∈ sanitizedCore s, c ∉ forbiddenChars ∧ c ≠ ' '
      exact sanitizedCore_chars s
    · intro h
      exact absurd (by simp [h]) hc

/-- C9 witness: a string of only forbidden characters sanitizes to the
fallback name. -/
theorem C9_witness : sanitize_filename "///" = "video_download" :=
  (C9_sanitize_filename_safe "///").2.2.2 (by decide)

/-- C8: a retrieval request for a file name that is not present in the
serving area returns the 404 not-found condition (a typed
`HTTPException`), not a crash or partial content. -/
theorem C8_missing_file_not_found (serving : List String) (filename : String)
    (title : Option String) (h : filename ∉ serving) :
    get_file serving filename title = .error ⟨404, "Arquivo sumiu ou expirou."⟩ := by
  unfold get_file
  rw [if_neg h]

/-- C8 witness: retrieving any name from an empty serving area gives 404. -/
theorem C8_witness :
    get_file [] "dl_101010_abc.mp4" none = .error ⟨404, "Arquivo sumiu ou expirou."⟩ :=
  C8_missing_file_not_found [] "dl_101010_abc.mp4" none (by decide)

/-- C4 counterexample: with two stale deletable files behind a stale file
whose unlink raises, one sweep deletes nothing at all — the failure on
`a.mp4` aborts the deletion attempts for `b.mp4` (same directory) and
`c.mp4` (other directory), both of which are files older than the cutoff
whose unlink would have succeeded. This refutes the claim that each
deletion attempt is independently fault-tolerant. -/
theorem C4_counterexample :
    cleanup_old_files 100 10
        ⟨[⟨"a.mp4", 0, true, true⟩, ⟨"b.mp4", 0, true, false⟩],
         [⟨"c.mp4", 0, true, false⟩], false, false⟩ =
      ⟨[⟨"a.mp4", 0, true, true⟩, ⟨"b.mp4", 0, true, false⟩],
       [⟨"c.mp4", 0, true, false⟩], false, false⟩ ∧
    ((0 : Int) < 100 - 10) := by decide

/-- C4 amended: a failure to delete one file aborts the deletion attempts
for every remaining file of the sweep (the single `try/except` wraps both
directory loops), though the exception never escapes `cleanup_old_files`.
Stated for a failing stale file at the head of the staging listing: the
whole filesystem is left untouched, whatever follows. -/
theorem C4_failed_unlink_aborts_sweep (now window : Int) (f : FsFile)
    (rest down : List FsFile)
    (hf : f.isFile = true) (hm : f.mtime < now - window) (hu : f.unlinkFails = true) :
    cleanup_old_files now window ⟨f :: rest, down, false, false⟩ =
      ⟨f :: rest, down, false, false⟩ := by
  have hs : sweepDir (now - window) (f :: rest) = (f :: rest, true) := by
    unfold sweepDir
    rw [if_pos ⟨hf, hm⟩, if_pos hu]
  simp [cleanup_old_files, cleanup_body, hs]

/-- C4 witness: concrete instance of the aborted sweep. -/
theorem C4_witness :
    ((0 : Int) < 100 - 10) ∧
    cleanup_old_files 100 10
        ⟨[⟨"a.mp4", 0, true, true⟩, ⟨"b.mp4", 0, true, false⟩], [], false, false⟩ =
      ⟨[⟨"a.mp4", 0, true, true⟩, ⟨"b.mp4", 0, true, false⟩], [], false, false⟩ :=
  ⟨by decide, C4_failed_unlink_aborts_sweep 100 10 ⟨"a.mp4", 0, true, true⟩
    [⟨"b.mp4", 0, true, false⟩] [] rfl (by decide) rfl⟩

/-- C6: a file strictly younger than the retention window at sweep time
(`now - window < mtime`) is still present in its area after one run of
`cleanup_old_files`, wherever it sits in the staging or serving area. -/
theorem C6_young_files_survive (now window : Int) (s : DirsState) (f : FsFile)
    (h : now - window < f.mtime) :
    (f ∈ s.temp → f ∈ (cleanup_old_files now window s).temp) ∧
    (f ∈ s.download → f ∈ (cleanup_old_files now window s).download) := by
  constructor
  · intro hm
    rw [cleanup_temp_eq]
    by_cases hg : s.tempGlobFails = true
    · rw [if_pos hg]; exact hm
    · rw [if_neg hg]; exact mem_sweepDir_of_young h hm
  · intro hm
    rw [cleanup_download_eq]
    by_cases hg : s.tempGlobFails = true ∨ (sweepDir (now - window) s.temp).2 = true
        ∨ s.downloadGlobFails = true
    · rw [if_pos hg]; exact hm
    · rw [if_neg hg]; exact mem_sweepDir_of_young h hm

/-- C6 witness: a file of age 5 with a window of 50 survives the sweep. -/
theorem C6_witness :
    ((100 : Int) - 50 < 95) ∧
    (⟨"young.mp4", 95, true, false⟩ : FsFile) ∈
      (cleanup_old_files 100 50
        ⟨[⟨"young.mp4", 95, true, false⟩], [], false, false⟩).temp :=
  ⟨by decide,
   (C6_young_files_survive 100 50 ⟨[⟨"young.mp4", 95, true, false⟩], [], false, false⟩
      ⟨"young.mp4", 95, true, false⟩ (by decide)).1 (by decide)⟩

/-- C10: `cleanup_old_files` never propagates an exception: whether its
`try` body runs to completion or raises anywhere (listing or unlink, at
any point), the function returns normally with the state the body reached. -/
theorem C10_cleanup_never_propagates (now window : Int) (s : DirsState) :
    (∀ s', cleanup_body now window s = .ok s' →
      cleanup_old_files now window s = s') ∧
    (∀ e s', cleanup_body now window s = .error (e, s') →
      cleanup_old_files now window s = s') := by
  refine ⟨fun s' h => ?_, fun e s' h => ?_⟩ <;> simp [cleanup_old_files, h]

/-- C10 witness: on a state whose body raises (a stale file with a failing
unlink), `cleanup_old_files` still returns normally. -/
theorem C10_witness :
    cleanup_body 10 1 ⟨[⟨"a.mp4", 0, true, true⟩], [], false, false⟩ =
      .error ("unlink", ⟨[⟨"a.mp4", 0, true, true⟩], [], false, false⟩) ∧
    cleanup_old_files 10 1 ⟨[⟨"a.mp4", 0, true, true⟩], [], false, false⟩ =
      ⟨[⟨"a.mp4", 0, true, true⟩], [], false, false⟩ :=
  ⟨rfl, (C10_cleanup_never_propagates 10 1 _).2 "unlink" _ rfl⟩

/-- C1 counterexample: the `/api/download` endpoint's response is computed
from the completed download's outcome, not issued before it: at a concrete
successful input the response carries the finished artifact's retrieval
URL (there is no job-identifier field in `DownloadResponse` at all), and at
a failed input it is an error — two different responses determined by how
the execution ended, so the call blocked on the job's actual execution.
This refutes the claim that submission returns a job identifier
immediately without waiting. -/
theorem C1_counterexample :
    (download (.ok ("dl_xyz.mp4", "My Video")) "abc123" "120000" false).1 =
      .ok { status := "success", message := "Download concluído",
            download_url := some "/api/file/dl_120000_abc123.mp4?title=My_Video" } ∧
    (download (.error ⟨400, dlErrDetail⟩) "abc123" "120000" false).1 =
      .error ⟨500, serverErrDetail⟩ :=
  ⟨rfl, rfl⟩

/-- C1 amended: the submission operation is synchronous — it waits for
`download_video_logic` to finish and its response is a function of that
outcome: on success it returns the finished artifact's retrieval URL
(no job identifier exists anywhere in the response), and on any failure
an HTTP 500. -/
theorem C1_download_is_synchronous (logicRes : Except HTTPException (String × String))
    (sid ts : String) :
    (∀ name title, logicRes = .ok (name, title) →
      (download logicRes sid ts false).1 =
        .ok { status := "success", message := "Download concluído",
              download_url := some ("/api/file/" ++ ("dl_" ++ ts ++ "_" ++ sid
                ++ pathSuffix name) ++ "?title=" ++ sanitize_filename title) }) ∧
    (∀ e, logicRes = .error e →
      (download logicRes sid ts false).1 = .error ⟨500, serverErrDetail⟩) := by
  constructor
  · intro name title h
    subst h
    rfl
  · intro e h
    subst h
    rfl

/-- C1 witness: concrete instances of both response shapes. -/
theorem C1_witness :
    (download (.ok ("v.mp4", "t")) "id1" "090909" false).1 =
      .ok { status := "success", message := "Download concluído",
            download_url := some "/api/file/dl_090909_id1.mp4?title=t" } :=
  (C1_download_is_synchronous (.ok ("v.mp4", "t")) "id1" "090909").1 "v.mp4" "t" rfl

/-- C5 counterexample: the cleanup pass is not an unconditional perpetual
loop started at process start — the application schedules nothing at
startup, and `cleanup_old_files` is scheduled exactly as a one-shot
background task by a successful run of the `/api/download` handler (and
not by a failed one). Cleanup is therefore triggered by, and coupled to,
job completion, refuting the claim. -/
theorem C5_counterexample :
    startup_tasks = [] ∧
    (download (.ok ("x.mp4", "t")) "aaaaaa" "101010" false).2 = [BgTask.cleanup] ∧
    (download (.error ⟨400, dlErrDetail⟩) "aaaaaa" "101010" false).2 = [] :=
  ⟨rfl, rfl, rfl⟩

/-- C5 amended: cleanup runs as a one-shot background task scheduled by
each successful download; nothing schedules it at process start, no
periodic loop exists, and failed downloads schedule nothing. -/
theorem C5_cleanup_coupled_to_download (logicRes : Except HTTPException (String × String))
    (sid ts : String) (mv : Bool) :
    startup_tasks = [] ∧
    ((download logicRes sid ts mv).2 = [BgTask.cleanup] ↔
      (∃ r, logicRes = .ok r) ∧ mv = false) ∧
    ((download logicRes sid ts mv).2 = [BgTask.cleanup] ∨
      (download logicRes sid ts mv).2 = []) := by
  refine ⟨rfl, ?_, ?_⟩
  · cases logicRes with
    | error e => simp [download]
    | ok r =>
      obtain ⟨a, b⟩ := r
      cases mv <;> simp [download]
  · cases logicRes with
    | error e => simp [download]
    | ok r =>
      obtain ⟨a, b⟩ := r
      cases mv <;> simp [download]

/-- C7 counterexample: an extraction failure reaching the `/api/download`
endpoint is surfaced as HTTP 500 — a server error, not a client error:
`download_video_logic` raises `HTTPException(400, ...)`, but the
endpoint's blanket `except Exception` catches it and re-raises a 500. -/
theorem C7_counterexample :
    (download_endpoint "mp4" (.error "HTTP Error 403") "beef" [] "aaaaaa" "101010"
        false).1 = .error ⟨500, serverErrDetail⟩ ∧
    isClientError 500 = false :=
  ⟨rfl, rfl⟩

/-- C7 amended: an extraction failure is surfaced with a generic fixed
message by both endpoints, but as a client error (400) only by the
metadata endpoint; the download endpoint surfaces it as a server error
(500), its blanket handler having swallowed the 400. -/
theorem C7_extraction_failure_surfacing (e : String) (fmt tok sid ts : String)
    (temps : List TmpFile) (mv : Bool) :
    extract_video_info (.error e) =
      .error ⟨400, "Servidor recusou o link ou vídeo indisponível."⟩ ∧
    isClientError 400 = true ∧
    (download_endpoint fmt (.error e) tok temps sid ts mv).1 =
      .error ⟨500, serverErrDetail⟩ ∧
    isClientError 500 = false := by
  refine ⟨rfl, rfl, ?_, rfl⟩
  simp [download_endpoint, download_video_logic, download]

/-- C2 counterexample: with the expected output path absent, the staging
area holding the job-prefixed media file `dl_aaaaaaaa_vid.mkv` and a newer
thumbnail byproduct `thumb.webp`, and the freshly drawn glob token
(`uuid.uuid4().hex[:4]`, here `"beef"`) matching nothing, the resolution
step selects `thumb.webp`: a file that does not start with the job prefix
`dl_aaaaaaaa` and whose extension `.webp` is not a media-container
extension, while the prefix-matching media candidate is passed over. This
refutes the claimed prefix-scoped listing and media-extension filtering
(and the listing happens once, with no 10-attempt polling loop). -/
theorem C2_counterexample :
    download_video_logic "mp4" (.ok ⟨"My Video", "dl_aaaaaaaa_vid"⟩) "beef"
        [⟨"thumb.webp", 10⟩, ⟨"dl_aaaaaaaa_vid.mkv", 5⟩] =
      .ok ("thumb.webp", "My Video") ∧
    "dl_aaaaaaaa".data.isPrefixOf "thumb.webp".data = false ∧
    pathSuffix "thumb.webp" = ".webp" ∧
    ".webp" ∉ specMediaExtensions ∧
    (⟨"dl_aaaaaaaa_vid.mkv", 5⟩ : TmpFile) ∈
      ([⟨"thumb.webp", 10⟩, ⟨"dl_aaaaaaaa_vid.mkv", 5⟩] : List TmpFile) ∧
    "dl_aaaaaaaa".data.isPrefixOf "dl_aaaaaaaa_vid.mkv".data = true ∧
    ".mkv" ∈ specMediaExtensions :=
  ⟨rfl, by decide, by decide, by decide, by decide, by decide, by decide⟩

/-- C2 amended: when the expected output path is not found, the code globs
the staging area once for names containing a freshly drawn random token
(not the prefix chosen before the collaborator ran); when that matches
nothing, it falls back to selecting the most recently modified file of the
whole staging area, with no retry loop and no extension filtering — it
fails only if the staging area is empty. -/
theorem C2_fallback_picks_most_recent (format_type : String) (info : DlInfo)
    (tok : String) (temps : List TmpFile)
    (hmiss : (info.expectedBase ++ (if format_type = "mp3" then ".mp3" else ".mp4")) ∉
      temps.map (fun f => f.name))
    (htok : ∀ f ∈ temps, hasSubstr tok.data f.name.data = false)
    (hne : temps ≠ []) :
    ∃ f : TmpFile,
      download_video_logic format_type (.ok info) tok temps = .ok (f.name, info.title) ∧
      f ∈ temps ∧ ∀ g ∈ temps, g.mtime ≤ f.mtime := by
  have hfil : temps.filter (fun f => hasSubstr tok.data f.name.data) = [] := by
    rw [List.filter_eq_nil_iff]
    intro a ha
    simp [htok a ha]
  have hperm : List.Perm (sortByMtimeDesc temps) temps :=
    List.perm_insertionSort (fun a b : TmpFile => b.mtime ≤ a.mtime) temps
  cases hs : sortByMtimeDesc temps with
  | nil =>
    exfalso
    rw [hs] at hperm
    exact hne hperm.nil_eq.symm
  | cons h t =>
    refine ⟨h, ?_, ?_, ?_⟩
    · simp only [download_video_logic]
      rw [if_neg hmiss, hfil, hs]
    · have hmem : h ∈ sortByMtimeDesc temps := by
        rw [hs]
        exact List.mem_cons_self h t
      exact hperm.subset hmem
    · intro g hg
      have hg' : g ∈ sortByMtimeDesc temps := hperm.symm.subset hg
      rw [hs] at hg'
      have hsort : List.Sorted (fun a b : TmpFile => b.mtime ≤ a.mtime)
          (sortByMtimeDesc temps) :=
        List.sorted_insertionSort (fun a b : TmpFile => b.mtime ≤ a.mtime) temps
      rw [hs] at hsort
      rcases List.mem_cons.mp hg' with rfl | hgt
      · exact le_refl _
      · exact (List.sorted_cons.mp hsort).1 g hgt

/-- C2 witness: with two staging files, no expected-path hit and no token
match, the most recently modified file is selected. -/
theorem C2_witness :
    ∃ f : TmpFile,
      download_video_logic "mp4" (.ok ⟨"T", "dl_zz"⟩) "beef"
          [⟨"a.mp4", 3⟩, ⟨"b.mp4", 7⟩] = .ok (f.name, "T") ∧
      f ∈ ([⟨"a.mp4", 3⟩, ⟨"b.mp4", 7⟩] : List TmpFile) ∧
      ∀ g ∈ ([⟨"a.mp4", 3⟩, ⟨"b.mp4", 7⟩] : List TmpFile), g.mtime ≤ f.mtime :=
  C2_fallback_picks_most_recent "mp4" ⟨"T", "dl_zz"⟩ "beef"
    [⟨"a.mp4", 3⟩, ⟨"b.mp4", 7⟩] (by decide) (by decide) (by decide)

end VEngine
